import Mathlib

/-!
Formal model of the CrimsonDominionGame backend core: the battle resolver
(`src/user_battles/endpoints.py`, `start_battle`) and the session manager
(`src/auth/endpoints.py`: `login`, `refresh_token`, `get_current_user`),
embedded shallowly, with theorems about tie-breaking, error propagation and
the token lifecycle.

Modelling conventions:
- `fastapi.HTTPException(status_code, detail)` becomes the `HTTPError`
  structure; handlers return `Except HTTPError α`.
- The relational store (psycopg) is modelled as an in-memory table; a
  `SELECT ... WHERE id = %s` + `fetchone()` is a `List.find?`.  The database
  connection is modelled as always available (the `connect_to_db` failure
  path is orthogonal to every claim below).
- Identifiers (UUIDs) are opaque strings; the code compares them with
  `str(x) == str(y)`, which is string equality here.
- The JWT codec (`jose.jwt`) is modelled symbolically: an encoded token
  records its claim set, expiry timestamp and signing secret; decoding
  under a key succeeds exactly when the key matches the signing secret and
  the token is unexpired at the current time, which is the observable
  behaviour of sign-then-verify.
- The password hasher (`passlib` bcrypt) is modelled symbolically: a hash
  records the hashed plaintext and a salt; verification compares
  plaintexts.  This matches the spec's contract for the external hasher
  ("recomputes and compares", salted).
- Python truthiness on optional strings (`if not x`) is `pyTruthy`:
  `None` and the empty string are falsy.
-/

/-- An HTTP-level error, as raised by `fastapi.HTTPException(status_code, detail)`.
The optional `headers` field of the real exception carries no decision-relevant
data and is omitted. -/
structure HTTPError where
  status_code : Nat
  detail : String
deriving Repr, DecidableEq

/-- Starlette (>= 0.19) renders `str(HTTPException(...))` as
`f"{status_code}: {detail}"`; this is the string the catch-all handler in
`start_battle` interpolates into its 500 detail. -/
def strOfHTTPError (e : HTTPError) : String :=
  toString e.status_code ++ ": " ++ e.detail

/-- Python truthiness of an optional string: `None` and `""` are falsy,
every other string is truthy. -/
def pyTruthy (s : Option String) : Bool :=
  match s with
  | none => false
  | some v => v != ""

/- ----------------------------------------------------------------
Battle resolver: src/user_battles/endpoints.py
---------------------------------------------------------------- -/

/-- A row of the `user_fleets` table as selected by
`SELECT id, user_id, ships FROM user_fleets WHERE id = %s`: the fleet id,
the owner id, and the ships mapping (a JSON object from ship-type label to
count; keys unique within one fleet, counts non-negative integers). -/
structure FleetRow where
  id : String
  user_id : String
  ships : List (String × Nat)
deriving Repr, DecidableEq

/-- The `SELECT ... WHERE id = %s` + `fetchone()` lookup on the
`user_fleets` table. -/
def fetchFleet (db : List FleetRow) (fleet_id : String) : Option FleetRow :=
  db.find? (fun r => r.id == fleet_id)

/-- Embeds `sum(ships.values())`. -/
def fleetTotal (ships : List (String × Nat)) : Nat :=
  (ships.map Prod.snd).sum

/-- The `BattleResult` pydantic response model of `start_battle`. -/
structure BattleResult where
  battle_id : String
  attacker_id : String
  defender_id : String
  attacker_fleet_id : String
  defender_fleet_id : String
  winner_id : String
  loser_id : String
  attacker_total_ships : Nat
  defender_total_ships : Nat
  report : String
deriving Repr, DecidableEq

/-- Error raised when the attacker fleet lookup returns no row. -/
def AttackerNotFound : HTTPError := ⟨404, "Attacker fleet not found"⟩

/-- Error raised when the attacker fleet is not owned by the caller. -/
def NotOwned : HTTPError := ⟨403, "You do not own the attacker fleet"⟩

/-- Error raised when the defender fleet lookup returns no row. -/
def DefenderNotFound : HTTPError := ⟨404, "Defender fleet not found"⟩

/-- Error raised when the defender fleet belongs to the caller
(self-battle). -/
def SelfBattleForbidden : HTTPError := ⟨400, "Cannot attack your own fleet"⟩

/-- Embeds the winner-determination block of `start_battle` (lines 61-74):
returns `(winner_id, loser_id, outcome)`.  The tie branch awards the win to
the defender. -/
def determine_winner (attacker_total defender_total : Nat)
    (attacker_owner defender_owner : String) : String × String × String :=
  if attacker_total > defender_total then
    (attacker_owner, defender_owner, "Attacker wins")
  else if defender_total > attacker_total then
    (defender_owner, attacker_owner, "Defender wins")
  else
    (defender_owner, attacker_owner, "Tie - Defender wins by default")

/-- Embeds the f-string
`f"Battle ID: {battle_id}\n{outcome}!\nAttacker ships: {attacker_total}\nDefender ships: {defender_total}"`. -/
def battleReport (battle_id outcome : String)
    (attacker_total defender_total : Nat) : String :=
  "Battle ID: " ++ battle_id ++ "\n" ++ outcome ++ "!\nAttacker ships: "
    ++ toString attacker_total ++ "\nDefender ships: " ++ toString defender_total

/-- The body of `start_battle` inside the cursor block (lines 33-91):
fetch and validate both fleets, compare totals, and build the
`BattleResult`.  `caller_id` is `current_user.id`; `battle_id` is the
`uuid4()` value, passed in as the source of freshness.  Parsing the ships
JSON (`json.loads` when the driver returns a string) is the identity at
this level of modelling. -/
def start_battle_core (db : List FleetRow)
    (attacker_fleet_id defender_fleet_id caller_id battle_id : String) :
    Except HTTPError BattleResult :=
  match fetchFleet db attacker_fleet_id with
  | none => .error AttackerNotFound
  | some attacker_fleet =>
    if attacker_fleet.user_id ≠ caller_id then .error NotOwned
    else
      match fetchFleet db defender_fleet_id with
      | none => .error DefenderNotFound
      | some defender_fleet =>
        if defender_fleet.user_id = caller_id then .error SelfBattleForbidden
        else
          let attacker_total := fleetTotal attacker_fleet.ships
          let defender_total := fleetTotal defender_fleet.ships
          let wlo := determine_winner attacker_total defender_total
            attacker_fleet.user_id defender_fleet.user_id
          .ok {
            battle_id := battle_id
            attacker_id := attacker_fleet.user_id
            defender_id := defender_fleet.user_id
            attacker_fleet_id := attacker_fleet_id
            defender_fleet_id := defender_fleet_id
            winner_id := wlo.1
            loser_id := wlo.2.1
            attacker_total_ships := attacker_total
            defender_total_ships := defender_total
            report := battleReport battle_id wlo.2.2 attacker_total defender_total }

/-- The full `start_battle` handler.  The `try` block wraps every statement
from line 33 on, and `except Exception as e` (line 93) catches any exception
raised inside it — including the deliberately raised `HTTPException`s, since
`HTTPException` subclasses `Exception` — and re-raises
`HTTPException(500, f"Error during battle: {str(e)}")`. -/
def start_battle (db : List FleetRow)
    (attacker_fleet_id defender_fleet_id caller_id battle_id : String) :
    Except HTTPError BattleResult :=
  match start_battle_core db attacker_fleet_id defender_fleet_id caller_id battle_id with
  | .ok r => .ok r
  | .error e => .error ⟨500, "Error during battle: " ++ strOfHTTPError e⟩

/-- The proposition that `sub` occurs as a contiguous substring of `s`. -/
def strContains (s sub : String) : Prop :=
  ∃ pre post : List Char, s.data = pre ++ sub.data ++ post

/- ----------------------------------------------------------------
Session manager: src/auth/endpoints.py
---------------------------------------------------------------- -/

/-- Symbolic model of a bcrypt hash produced by the external `passlib`
context: it determines the hashed plaintext, and the per-call random salt
makes equal plaintexts hash to distinct outputs. -/
structure PasswordHash where
  plain : String
  salt : Nat
deriving Repr, DecidableEq

/-- Embeds `hash_password`: `pwd_context.hash(password)` with a per-call
random salt, passed in explicitly. -/
def hash_password (password : String) (salt : Nat) : PasswordHash :=
  ⟨password, salt⟩

/-- Embeds `verify_password`: `pwd_context.verify(plain, hashed)`
recomputes with the embedded salt and compares, i.e. it holds exactly when
the plaintexts agree. -/
def verify_password (plain : String) (hashed : PasswordHash) : Bool :=
  plain == hashed.plain

/-- The claim set carried by a token payload.  `payload.get(k)` in Python
returns `None` both when the key is absent and when it maps to an explicit
JSON null, so each field is an `Option` covering both. -/
structure Claims where
  id : Option String
  sub : Option String
  is_admin : Option Bool
deriving Repr, DecidableEq

/-- Symbolic model of a token produced by `jose.jwt.encode(claims + exp,
secret, HS256)`: it determines its claim set, expiry timestamp (seconds)
and signing secret. -/
structure Token where
  claims : Claims
  exp : Nat
  secret : String
deriving Repr, DecidableEq

/-- Embeds `jwt.decode(token, key, algorithms=[ALGORITHM])`: raises
`JWTError` (here: `none`) on a signature mismatch or when the expiry
timestamp is not in the future at the current time, and otherwise yields
the claim set. -/
def jwt_decode (t : Token) (key : String) (now : Nat) : Option Claims :=
  if t.secret = key ∧ now < t.exp then some t.claims else none

/-- `SECRET_KEY = os.getenv("SECRET_KEY", "your-secret-key")` — the access
token signing secret (the env default; only its identity matters). -/
def SECRET_KEY : String := "your-secret-key"

/-- `REFRESH_SECRET_KEY = os.getenv("REFRESH_SECRET_KEY", ...)` — the
refresh token signing secret, distinct from the access secret. -/
def REFRESH_SECRET_KEY : String := "your-refresh-secret-key"

/-- `ACCESS_TOKEN_EXPIRE_MINUTES = 30`. -/
def ACCESS_TOKEN_EXPIRE_MINUTES : Nat := 30

/-- `REFRESH_TOKEN_EXPIRE_DAYS = 7`. -/
def REFRESH_TOKEN_EXPIRE_DAYS : Nat := 7

/-- Embeds `create_access_token(data)` at its default expiry:
`exp = utcnow() + timedelta(minutes=ACCESS_TOKEN_EXPIRE_MINUTES)`, signed
with `SECRET_KEY`. -/
def create_access_token (data : Claims) (now : Nat) : Token :=
  ⟨data, now + ACCESS_TOKEN_EXPIRE_MINUTES * 60, SECRET_KEY⟩

/-- Embeds `create_refresh_token(data)`:
`exp = utcnow() + timedelta(days=REFRESH_TOKEN_EXPIRE_DAYS)`, signed with
`REFRESH_SECRET_KEY`. -/
def create_refresh_token (data : Claims) (now : Nat) : Token :=
  ⟨data, now + REFRESH_TOKEN_EXPIRE_DAYS * 24 * 60 * 60, REFRESH_SECRET_KEY⟩

/-- A row of the `users` table as selected by
`SELECT id, username, email, password, is_admin FROM users WHERE username = %s`. -/
structure UserRow where
  id : String
  username : String
  email : String
  password : PasswordHash
  is_admin : Bool
deriving Repr, DecidableEq

/-- Embeds `get_user_by_username`: the `WHERE username = %s` + `fetchone()`
lookup (usernames are unique, so first match is the match). -/
def get_user_by_username (db : List UserRow) (username : String) : Option UserRow :=
  db.find? (fun u => u.username == username)

/-- The `TokenData` pydantic model returned by `get_current_user` — the
spec's Principal. -/
structure TokenData where
  id : String
  username : String
  is_admin : Bool
deriving Repr, DecidableEq

/-- The `credentials_exception` of `get_current_user` (its
`WWW-Authenticate: Bearer` challenge header carries no decision-relevant
data and is omitted). -/
def credentials_exception : HTTPError :=
  ⟨401, "Could not validate credentials"⟩

/-- The `Token` response model of `login` and `refresh_token`. -/
structure TokenPair where
  access_token : Token
  refresh_token : Token
  token_type : String
deriving Repr, DecidableEq

/-- Embeds `get_current_user` (resolve_caller): decode under `SECRET_KEY`;
on `JWTError` raise `credentials_exception`; then
`if not all([user_id, username, is_admin is not None])` raise
`credentials_exception` — so a missing or empty-string `id` or `sub` claim
fails (Python truthiness), and a missing `is_admin` fails while an
explicit `False` passes; otherwise return the `TokenData`. -/
def get_current_user (token : Token) (now : Nat) : Except HTTPError TokenData :=
  match jwt_decode token SECRET_KEY now with
  | none => .error credentials_exception
  | some payload =>
    if pyTruthy payload.id && pyTruthy payload.sub && payload.is_admin.isSome then
      .ok ⟨payload.id.getD "", payload.sub.getD "", payload.is_admin.getD false⟩
    else
      .error credentials_exception

/-- The error raised by `login` for a missing user and for a password
mismatch alike. -/
def InvalidCredentials : HTTPError := ⟨401, "Invalid username or password"⟩

/-- Embeds `login`: look the user up by username; `if user is None or not
verify_password(...)` raise 401 "Invalid username or password"; otherwise
build the payload `{"id": str(user[0]), "sub": user[1], "is_admin": user[4]}`
and return a fresh access/refresh token pair with token_type "bearer". -/
def login (db : List UserRow) (username password : String) (now : Nat) :
    Except HTTPError TokenPair :=
  match get_user_by_username db username with
  | none => .error InvalidCredentials
  | some user =>
    if verify_password password user.password then
      let payload : Claims := ⟨some user.id, some user.username, some user.is_admin⟩
      .ok ⟨create_access_token payload now, create_refresh_token payload now, "bearer"⟩
    else
      .error InvalidCredentials

/-- The error raised by `refresh_token` when the decoded claims fail the
`if not username or not user_id` truthiness check. -/
def InvalidRefreshClaims : HTTPError := ⟨401, "Invalid refresh token"⟩

/-- The error raised by `refresh_token` when `jwt.decode` raises
`JWTError` (bad signature, malformed, or expired). -/
def InvalidRefreshToken : HTTPError := ⟨401, "Invalid or expired refresh token"⟩

/-- Embeds `refresh_token`: decode under `REFRESH_SECRET_KEY` (the
`except JWTError` clause catches only `JWTError`, so the 401 raised by the
truthiness check propagates unwrapped); `if not username or not user_id`
raise 401 "Invalid refresh token"; otherwise mint a brand-new access and
refresh token from the dict `{"id": user_id, "sub": username, "is_admin":
is_admin}` rebuilt from the decoded claims (so an absent/null `is_admin`
is carried through as absent/null).  The function reads no store and
mutates nothing: the presented refresh token stays valid. -/
def refresh_token (tok : Token) (now : Nat) : Except HTTPError TokenPair :=
  match jwt_decode tok REFRESH_SECRET_KEY now with
  | none => .error InvalidRefreshToken
  | some payload =>
    if !pyTruthy payload.sub || !pyTruthy payload.id then
      .error InvalidRefreshClaims
    else
      let data : Claims := ⟨payload.id, payload.sub, payload.is_admin⟩
      .ok ⟨create_access_token data now, create_refresh_token data now, "bearer"⟩

/- ----------------------------------------------------------------
Concrete fixtures used to instantiate the theorems below
---------------------------------------------------------------- -/

/-- Two fleets with distinct owners and zero ships each: a tie between two
empty fleets. -/
def exDBTie : List FleetRow := [⟨"af", "u1", []⟩, ⟨"df", "u2", []⟩]

/-- Two fleets with distinct owners, 10 ships vs 5 ships. -/
def exDB7 : List FleetRow := [⟨"af", "u1", [("x", 10)]⟩, ⟨"df", "u2", [("x", 5)]⟩]

/-- Two fleets with the same owner (a self-battle attempt). -/
def exDB3 : List FleetRow := [⟨"af", "u1", [("x", 5)]⟩, ⟨"df", "u1", [("y", 7)]⟩]

/-- A store holding only the attacker's fleet: the defender fleet id will
not resolve. -/
def exDB2 : List FleetRow := [⟨"af", "u1", [("x", 1)]⟩]

/-- Two equal-strength fleets (3 vs 3) with distinct owners. -/
def exDB10 : List FleetRow := [⟨"fa", "p1", [("y", 3)]⟩, ⟨"fd", "p2", [("y", 3)]⟩]

/-- The battle result produced on `exDB10`: a tie resolved for the
defender. -/
def exResult10 : BattleResult :=
  ⟨"b9", "p1", "p2", "fa", "fd", "p2", "p1", 3, 3,
    battleReport "b9" "Tie - Defender wins by default" 3 3⟩

/-- A one-user credential store: alice, password "pw", not an admin. -/
def exUsers : List UserRow :=
  [⟨"u1", "alice", "alice@example.com", hash_password "pw" 0, false⟩]

/-- A credential store whose single record has the empty string as its
username. -/
def exUsersEmptyName : List UserRow :=
  [⟨"u1", "", "ghost@example.com", hash_password "pw" 0, false⟩]

/-- The access token `login` issues at time 0 on `exUsersEmptyName`. -/
def exTokC5access : Token := ⟨⟨some "u1", some "", some false⟩, 1800, SECRET_KEY⟩

/-- The refresh token `login` issues at time 0 on `exUsersEmptyName`. -/
def exTokC5refresh : Token :=
  ⟨⟨some "u1", some "", some false⟩, 604800, REFRESH_SECRET_KEY⟩

/-- A validly signed, unexpired access token whose `id` claim is present
but the empty string. -/
def exTok6 : Token := ⟨⟨some "", some "alice", some true⟩, 100, SECRET_KEY⟩

/-- A validly signed, unexpired access token with non-empty `id` and `sub`
and an explicit `is_admin = false`. -/
def exTok6good : Token := ⟨⟨some "u1", some "alice", some false⟩, 100, SECRET_KEY⟩

/-- A validly signed, unexpired access token lacking the `is_admin`
claim. -/
def exTok6missing : Token := ⟨⟨some "u1", some "alice", none⟩, 100, SECRET_KEY⟩

/-- A validly signed, unexpired refresh token whose `sub` claim is present
but the empty string. -/
def exTok8 : Token := ⟨⟨some "u1", some "", some false⟩, 100, REFRESH_SECRET_KEY⟩

/-- A token signed with the access secret instead of the refresh secret:
`refresh` must reject it. -/
def exTok8bad : Token := ⟨⟨some "u1", some "alice", some true⟩, 100, SECRET_KEY⟩

/-- A well-formed, validly signed, unexpired refresh token. -/
def exTok8good : Token := ⟨⟨some "u1", some "alice", some true⟩, 100, REFRESH_SECRET_KEY⟩

/-- A validly signed, unexpired refresh token carrying `id` and an
empty-string `sub`, with no `is_admin` claim. -/
def exTok9 : Token := ⟨⟨some "u1", some "", none⟩, 100, REFRESH_SECRET_KEY⟩

/-- A validly signed, unexpired refresh token with non-empty `id` and
`sub` and no `is_admin` claim. -/
def exTok9good : Token := ⟨⟨some "u1", some "alice", none⟩, 100, REFRESH_SECRET_KEY⟩

/- ----------------------------------------------------------------
Helper lemmas
---------------------------------------------------------------- -/

/-- With equal totals the winner-determination block takes the tie branch:
defender wins, attacker loses. -/
theorem determine_winner_tie (n : Nat) (a d : String) :
    determine_winner n n a d = (d, a, "Tie - Defender wins by default") := by
  simp [determine_winner]

/-- With a strictly larger attacker total the winner-determination block
awards the attacker. -/
theorem determine_winner_attacker (m n : Nat) (h : n < m) (a d : String) :
    determine_winner m n a d = (a, d, "Attacker wins") := by
  simp [determine_winner, h]

/-- The battle report contains its outcome label as a contiguous
substring. -/
theorem battleReport_contains (bid outcome : String) (ta td : Nat) :
    strContains (battleReport bid outcome ta td) outcome := by
  refine ⟨("Battle ID: " ++ bid ++ "\n").data,
    ("!\nAttacker ships: " ++ toString ta ++ "\nDefender ships: " ++ toString td).data, ?_⟩
  simp [battleReport, String.data_append, List.append_assoc]

/-- When both fleets resolve, the attacker is owned by the caller, and the
defender is not, `start_battle_core` succeeds with the record built from
the winner-determination block. -/
theorem start_battle_core_ok (db : List FleetRow) (afid dfid caller bid : String)
    (A D : FleetRow) (hA : fetchFleet db afid = some A) (hOwn : A.user_id = caller)
    (hD : fetchFleet db dfid = some D) (hNotSelf : D.user_id ≠ caller) :
    start_battle_core db afid dfid caller bid = .ok {
      battle_id := bid
      attacker_id := A.user_id
      defender_id := D.user_id
      attacker_fleet_id := afid
      defender_fleet_id := dfid
      winner_id := (determine_winner (fleetTotal A.ships) (fleetTotal D.ships)
        A.user_id D.user_id).1
      loser_id := (determine_winner (fleetTotal A.ships) (fleetTotal D.ships)
        A.user_id D.user_id).2.1
      attacker_total_ships := fleetTotal A.ships
      defender_total_ships := fleetTotal D.ships
      report := battleReport bid (determine_winner (fleetTotal A.ships)
        (fleetTotal D.ships) A.user_id D.user_id).2.2
        (fleetTotal A.ships) (fleetTotal D.ships) } := by
  subst hOwn
  simp [start_battle_core, hA, hD, hNotSelf]

/-- A successful core outcome passes through the `start_battle` wrapper
unchanged. -/
theorem start_battle_of_core_ok (db : List FleetRow)
    (afid dfid caller bid : String) (r : BattleResult)
    (h : start_battle_core db afid dfid caller bid = .ok r) :
    start_battle db afid dfid caller bid = .ok r := by
  simp [start_battle, h]

/- ----------------------------------------------------------------
Claim theorems
---------------------------------------------------------------- -/

/-- C1: for every pair of fleets whose ship-count totals are equal
(including both empty), the battle resolver declares the defender the
winner — `winner_id` is the defender fleet's owner and `loser_id` the
attacker fleet's owner, never the reverse — and the report carries the
outcome label "Tie - Defender wins by default". -/
theorem battle_tie_defender_wins (db : List FleetRow)
    (afid dfid caller bid : String) (A D : FleetRow)
    (hA : fetchFleet db afid = some A) (hOwn : A.user_id = caller)
    (hD : fetchFleet db dfid = some D) (hNotSelf : D.user_id ≠ caller)
    (hEq : fleetTotal A.ships = fleetTotal D.ships) :
    ∃ r : BattleResult, start_battle db afid dfid caller bid = .ok r ∧
      r.winner_id = D.user_id ∧ r.loser_id = A.user_id ∧
      strContains r.report "Tie - Defender wins by default" := by
  have hc := start_battle_core_ok db afid dfid caller bid A D hA hOwn hD hNotSelf
  rw [hEq, determine_winner_tie] at hc
  exact ⟨_, start_battle_of_core_ok db afid dfid caller bid _ hc, rfl, rfl,
    battleReport_contains bid _ _ _⟩

/-- Witness for C1: two empty fleets (totals 0 = 0) owned by u1 and u2;
the defender's owner u2 wins, u1 loses, and the report contains
"Tie - Defender wins by default". -/
theorem battle_tie_defender_wins_witness :
    ∃ r : BattleResult, start_battle exDBTie "af" "df" "u1" "b1" = .ok r ∧
      r.winner_id = "u2" ∧ r.loser_id = "u1" ∧
      strContains r.report "Tie - Defender wins by default" :=
  battle_tie_defender_wins exDBTie "af" "df" "u1" "b1"
    ⟨"af", "u1", []⟩ ⟨"df", "u2", []⟩ rfl rfl rfl (by decide) rfl

/-- C7: for every pair of fleets with distinct owners where the attacker's
ship-count sum strictly exceeds the defender's, the resolver declares the
attacker's owner the winner, the outcome carries both sums in
`attacker_total_ships` and `defender_total_ships`, and the report contains
"Attacker wins". -/
theorem battle_attacker_wins (db : List FleetRow)
    (afid dfid caller bid : String) (A D : FleetRow)
    (hA : fetchFleet db afid = some A) (hOwn : A.user_id = caller)
    (hD : fetchFleet db dfid = some D) (hNotSelf : D.user_id ≠ caller)
    (hGt : fleetTotal D.ships < fleetTotal A.ships) :
    ∃ r : BattleResult, start_battle db afid dfid caller bid = .ok r ∧
      r.winner_id = A.user_id ∧ r.loser_id = D.user_id ∧
      r.attacker_total_ships = fleetTotal A.ships ∧
      r.defender_total_ships = fleetTotal D.ships ∧
      strContains r.report "Attacker wins" := by
  have hc := start_battle_core_ok db afid dfid caller bid A D hA hOwn hD hNotSelf
  rw [determine_winner_attacker (fleetTotal A.ships) (fleetTotal D.ships) hGt] at hc
  exact ⟨_, start_battle_of_core_ok db afid dfid caller bid _ hc, rfl, rfl, rfl, rfl,
    battleReport_contains bid _ _ _⟩

/-- Witness for C7: fleets of 10 vs 5 ships owned by u1 and u2; u1 wins,
the totals are 10 and 5, and the report contains "Attacker wins". -/
theorem battle_attacker_wins_witness :
    ∃ r : BattleResult, start_battle exDB7 "af" "df" "u1" "b1" = .ok r ∧
      r.winner_id = "u1" ∧ r.loser_id = "u2" ∧
      r.attacker_total_ships = 10 ∧ r.defender_total_ships = 5 ∧
      strContains r.report "Attacker wins" :=
  battle_attacker_wins exDB7 "af" "df" "u1" "b1"
    ⟨"af", "u1", [("x", 10)]⟩ ⟨"df", "u2", [("x", 5)]⟩ rfl rfl rfl (by decide) (by decide)

/-- C3: for every pair of fleets whose owner identifiers are equal (with
the attacker's ownership by the caller already validated, as the resolver
requires), the resolver fails with `SelfBattleForbidden`, for every choice
of ship contents of either fleet — the constant error does not depend on
the totals. -/
theorem battle_self_forbidden (db : List FleetRow)
    (afid dfid caller bid : String) (A D : FleetRow)
    (hA : fetchFleet db afid = some A) (hOwn : A.user_id = caller)
    (hD : fetchFleet db dfid = some D) (hSame : D.user_id = A.user_id) :
    start_battle_core db afid dfid caller bid = .error SelfBattleForbidden := by
  subst hOwn
  simp [start_battle_core, hA, hD, hSame]

/-- Witness for C3: two fleets both owned by u1 (with 5 and 7 ships);
the resolver rejects the battle with `SelfBattleForbidden`. -/
theorem battle_self_forbidden_witness :
    start_battle_core exDB3 "af" "df" "u1" "b1" = .error SelfBattleForbidden :=
  battle_self_forbidden exDB3 "af" "df" "u1" "b1"
    ⟨"af", "u1", [("x", 5)]⟩ ⟨"df", "u1", [("y", 7)]⟩ rfl rfl rfl rfl

/-- Counterexample to C2: on a store holding only the attacker's fleet,
battling a missing defender fleet is surfaced to the caller as a generic
500 error (with the original message only embedded in the detail text),
not as the distinct 404 `DefenderNotFound` error. -/
theorem battle_error_masking_counterexample :
    start_battle exDB2 "af" "df" "u1" "b1" =
      .error ⟨500, "Error during battle: 404: Defender fleet not found"⟩ ∧
    start_battle exDB2 "af" "df" "u1" "b1" ≠ .error DefenderNotFound := by
  have h1 : start_battle exDB2 "af" "df" "u1" "b1" =
      .error ⟨500, "Error during battle: 404: Defender fleet not found"⟩ := rfl
  refine ⟨h1, fun h => ?_⟩
  rw [h1] at h
  exact absurd (Except.error.inj h) (by decide)

/-- C2 as amended: each precondition violation does raise its own distinct
error inside the handler — 404 for a missing defender fleet, 403 for an
attacker fleet the caller does not own — but the handler's catch-all
(`except Exception`, line 93) intercepts every one of them and re-raises
it as a generic 500 whose detail merely embeds the original error's
text, so the distinct statuses are not caller-visible. -/
theorem battle_errors_wrapped (db : List FleetRow) (afid dfid caller bid : String) :
    (∀ A : FleetRow, fetchFleet db afid = some A → A.user_id = caller →
      fetchFleet db dfid = none →
      start_battle_core db afid dfid caller bid = .error DefenderNotFound ∧
      start_battle db afid dfid caller bid =
        .error ⟨500, "Error during battle: " ++ strOfHTTPError DefenderNotFound⟩) ∧
    (∀ A : FleetRow, fetchFleet db afid = some A → A.user_id ≠ caller →
      start_battle_core db afid dfid caller bid = .error NotOwned ∧
      start_battle db afid dfid caller bid =
        .error ⟨500, "Error during battle: " ++ strOfHTTPError NotOwned⟩) ∧
    (∀ e : HTTPError, start_battle_core db afid dfid caller bid = .error e →
      start_battle db afid dfid caller bid =
        .error ⟨500, "Error during battle: " ++ strOfHTTPError e⟩) := by
  refine ⟨fun A hA hOwn hD => ?_, fun A hA hOwn => ?_, fun e he => ?_⟩
  · subst hOwn
    have hc : start_battle_core db afid dfid A.user_id bid = .error DefenderNotFound := by
      simp [start_battle_core, hA, hD]
    exact ⟨hc, by simp [start_battle, hc]⟩
  · have hc : start_battle_core db afid dfid caller bid = .error NotOwned := by
      simp [start_battle_core, hA, hOwn]
    exact ⟨hc, by simp [start_battle, hc]⟩
  · simp [start_battle, he]

/-- Witness for the amended C2: on `exDB2` the missing defender produces
the distinct 404 error in the core, and the caller-visible result of the
handler is the generic 500 wrapping of it. -/
theorem battle_errors_wrapped_witness :
    start_battle_core exDB2 "af" "df" "u1" "b1" = .error DefenderNotFound ∧
    start_battle exDB2 "af" "df" "u1" "b1" =
      .error ⟨500, "Error during battle: " ++ strOfHTTPError DefenderNotFound⟩ :=
  (battle_errors_wrapped exDB2 "af" "df" "u1" "b1").1
    ⟨"af", "u1", [("x", 1)]⟩ rfl rfl rfl

/-- C10: every successful battle outcome names the two participating
fleets' owners as `attacker_id` and `defender_id`, its winner and loser
are exactly those two owners in one of the two orders, and the winner is
never the loser. -/
theorem battle_winner_among_owners (db : List FleetRow)
    (afid dfid caller bid : String) (r : BattleResult)
    (h : start_battle db afid dfid caller bid = .ok r) :
    ∃ A D : FleetRow, fetchFleet db afid = some A ∧ fetchFleet db dfid = some D ∧
      r.attacker_id = A.user_id ∧ r.defender_id = D.user_id ∧
      ((r.winner_id = A.user_id ∧ r.loser_id = D.user_id) ∨
       (r.winner_id = D.user_id ∧ r.loser_id = A.user_id)) ∧
      r.winner_id ≠ r.loser_id := by
  have hc : start_battle_core db afid dfid caller bid = .ok r := by
    unfold start_battle at h
    split at h
    next r0 heq => exact heq.trans h
    next e heq => cases h
  unfold start_battle_core at hc
  split at hc
  next heqA => cases hc
  next A heqA =>
    split at hc
    next hOwn => cases hc
    next hOwn =>
      rw [not_not] at hOwn
      split at hc
      next heqD => cases hc
      next D heqD =>
        split at hc
        next hSelf => cases hc
        next hSelf =>
          have hne : D.user_id ≠ A.user_id := fun hcontra => hSelf (hcontra.trans hOwn)
          refine ⟨A, D, heqA, heqD, ?_⟩
          have hr := Except.ok.inj hc
          subst hr
          refine ⟨rfl, rfl, ?_⟩
          unfold determine_winner
          split_ifs with h1 h2
          · exact ⟨Or.inl ⟨rfl, rfl⟩, fun hcontra => hne hcontra.symm⟩
          · exact ⟨Or.inr ⟨rfl, rfl⟩, hne⟩
          · exact ⟨Or.inr ⟨rfl, rfl⟩, hne⟩

/-- Witness for C10: on the 3-vs-3 tie between owners p1 and p2 the
outcome `exResult10` names p1 and p2, its winner and loser are those two
owners, and they differ. -/
theorem battle_winner_among_owners_witness :
    ∃ A D : FleetRow, fetchFleet exDB10 "fa" = some A ∧ fetchFleet exDB10 "fd" = some D ∧
      exResult10.attacker_id = A.user_id ∧ exResult10.defender_id = D.user_id ∧
      ((exResult10.winner_id = A.user_id ∧ exResult10.loser_id = D.user_id) ∨
       (exResult10.winner_id = D.user_id ∧ exResult10.loser_id = A.user_id)) ∧
      exResult10.winner_id ≠ exResult10.loser_id :=
  battle_winner_among_owners exDB10 "fa" "fd" "p1" "b9" exResult10 rfl

/-- When the lookup finds the user and the password verifies, `login`
succeeds with a token pair minted from the record's id, username and
is_admin and the constant token type "bearer". -/
theorem login_ok (db : List UserRow) (username password : String) (now : Nat)
    (u : UserRow) (hu : get_user_by_username db username = some u)
    (hpw : verify_password password u.password = true) :
    login db username password now = .ok
      ⟨create_access_token ⟨some u.id, some u.username, some u.is_admin⟩ now,
       create_refresh_token ⟨some u.id, some u.username, some u.is_admin⟩ now,
       "bearer"⟩ := by
  simp [login, hu, hpw]

/-- When the token decodes under the access secret and carries non-empty
`id` and `sub` claims and any explicit `is_admin`, `get_current_user`
returns the reconstructed `TokenData`. -/
theorem get_current_user_ok (tok : Token) (now : Nat) (payload : Claims)
    (uid uname : String) (adm : Bool)
    (hdec : jwt_decode tok SECRET_KEY now = some payload)
    (hid : payload.id = some uid) (hsub : payload.sub = some uname)
    (hadm : payload.is_admin = some adm) (hui : uid ≠ "") (hun : uname ≠ "") :
    get_current_user tok now = .ok ⟨uid, uname, adm⟩ := by
  simp [get_current_user, hdec, hid, hsub, hadm, pyTruthy, hui, hun]

/-- C4: a username absent from the credential store and a stored user
presented with a non-matching password make `login` fail with the one and
the same error — status 401, message "Invalid username or password" — so a
caller cannot distinguish the two cases. -/
theorem login_enumeration_resistant (db : List UserRow)
    (username password : String) (now : Nat) :
    (get_user_by_username db username = none →
      login db username password now = .error InvalidCredentials) ∧
    (∀ u : UserRow, get_user_by_username db username = some u →
      verify_password password u.password = false →
      login db username password now = .error InvalidCredentials) := by
  constructor
  · intro h
    simp [login, h]
  · intro u hu hpw
    simp [login, hu, hpw]

/-- Witness for C4: on the one-user store, logging in as the absent user
"ghost" and logging in as "alice" with the wrong password produce the
identical `InvalidCredentials` error. -/
theorem login_enumeration_resistant_witness :
    login exUsers "ghost" "pw" 0 = .error InvalidCredentials ∧
    login exUsers "alice" "wrong" 0 = .error InvalidCredentials :=
  ⟨(login_enumeration_resistant exUsers "ghost" "pw" 0).1 rfl,
   (login_enumeration_resistant exUsers "alice" "wrong" 0).2
     ⟨"u1", "alice", "alice@example.com", hash_password "pw" 0, false⟩ rfl rfl⟩

/-- Counterexample to C5: the store `exUsersEmptyName` holds a credential
record whose username is the empty string; `login` with the matching
password succeeds, but passing the returned access token to
`get_current_user` immediately afterwards fails (the truthiness check
`if not all([user_id, username, ...])` rejects the empty `sub` claim), so
the round trip does not hold for every credential record. -/
theorem login_roundtrip_counterexample :
    login exUsersEmptyName "" "pw" 0 = .ok ⟨exTokC5access, exTokC5refresh, "bearer"⟩ ∧
    get_current_user exTokC5access 0 = .error credentials_exception := by
  constructor <;> rfl

/-- C5 as amended: for every credential record whose id and username are
non-empty, and every matching password, `login` followed immediately by
`get_current_user` on the returned access token succeeds and yields a
`TokenData` whose id, username and is_admin equal the stored record's
values. -/
theorem login_roundtrip (db : List UserRow) (username password : String)
    (now : Nat) (u : UserRow) (hu : get_user_by_username db username = some u)
    (hpw : verify_password password u.password = true)
    (hid : u.id ≠ "") (hname : u.username ≠ "") :
    ∃ pair : TokenPair, login db username password now = .ok pair ∧
      get_current_user pair.access_token now = .ok ⟨u.id, u.username, u.is_admin⟩ := by
  refine ⟨_, login_ok db username password now u hu hpw, ?_⟩
  apply get_current_user_ok _ _ ⟨some u.id, some u.username, some u.is_admin⟩
    u.id u.username u.is_admin _ rfl rfl rfl hid hname
  simp [jwt_decode, create_access_token, ACCESS_TOKEN_EXPIRE_MINUTES]

/-- Witness for the amended C5: alice logs in with her password and the
returned access token resolves back to `⟨"u1", "alice", false⟩`. -/
theorem login_roundtrip_witness :
    ∃ pair : TokenPair, login exUsers "alice" "pw" 0 = .ok pair ∧
      get_current_user pair.access_token 0 = .ok ⟨"u1", "alice", false⟩ :=
  login_roundtrip exUsers "alice" "pw" 0
    ⟨"u1", "alice", "alice@example.com", hash_password "pw" 0, false⟩
    rfl rfl (by decide) (by decide)

/-- Counterexample to C6: the token `exTok6` decodes and verifies under
the access secret and all three of its `id`, `sub` and `is_admin` claims
are present, yet `get_current_user` rejects it, because the present `id`
claim is the empty string and Python truthiness treats it as missing. -/
theorem resolve_caller_counterexample :
    jwt_decode exTok6 SECRET_KEY 0 = some ⟨some "", some "alice", some true⟩ ∧
    get_current_user exTok6 0 = .error credentials_exception := by
  constructor <;> rfl

/-- C6 as amended: for every access token that decodes and verifies under
the access secret, `get_current_user` fails with the 401
`credentials_exception` whenever the `id` or `sub` claim is absent or
present but the empty string (`pyTruthy` false) or the `is_admin` claim
is absent, and succeeds returning the reconstructed `TokenData` whenever
`id` and `sub` are present and non-empty and `is_admin` is present —
where `is_admin = false` counts as present and is accepted. -/
theorem resolve_caller_claims (tok : Token) (now : Nat) (payload : Claims)
    (hdec : jwt_decode tok SECRET_KEY now = some payload) :
    ((pyTruthy payload.id = false ∨ pyTruthy payload.sub = false ∨
        payload.is_admin = none) →
      get_current_user tok now = .error credentials_exception) ∧
    (∀ (uid uname : String) (adm : Bool), payload.id = some uid →
      payload.sub = some uname → payload.is_admin = some adm →
      uid ≠ "" → uname ≠ "" →
      get_current_user tok now = .ok ⟨uid, uname, adm⟩) := by
  constructor
  · rintro (h | h | h) <;> simp [get_current_user, hdec, h]
  · intro uid uname adm hid hsub hadm hui hun
    simp [get_current_user, hdec, hid, hsub, hadm, pyTruthy, hui, hun]

/-- Witness for the amended C6: the token with non-empty claims and an
explicit `is_admin = false` resolves to its principal, the token lacking
the `is_admin` claim is rejected, and the token whose `id` claim is the
empty string is rejected. -/
theorem resolve_caller_claims_witness :
    get_current_user exTok6good 0 = .ok ⟨"u1", "alice", false⟩ ∧
    get_current_user exTok6missing 0 = .error credentials_exception ∧
    get_current_user exTok6 0 = .error credentials_exception :=
  ⟨(resolve_caller_claims exTok6good 0 ⟨some "u1", some "alice", some false⟩ rfl).2
      "u1" "alice" false rfl rfl rfl (by decide) (by decide),
   (resolve_caller_claims exTok6missing 0 ⟨some "u1", some "alice", none⟩ rfl).1
      (Or.inr (Or.inr rfl)),
   (resolve_caller_claims exTok6 0 ⟨some "", some "alice", some true⟩ rfl).1
      (Or.inl (by decide))⟩

/-- Counterexample to C8: the refresh token `exTok8` decodes and verifies
under the refresh secret and its decoded claims lack neither `id` nor
`sub` (the `sub` claim is present but empty), yet `refresh_token` does not
return a new token pair — the truthiness check `if not username or not
user_id` rejects it with the 401 "Invalid refresh token" error. -/
theorem refresh_contract_counterexample :
    jwt_decode exTok8 REFRESH_SECRET_KEY 0 = some ⟨some "u1", some "", some false⟩ ∧
    refresh_token exTok8 0 = .error InvalidRefreshClaims := by
  constructor <;> rfl

/-- C8 as amended: `refresh_token` fails with the 401 "Invalid or expired
refresh token" error when decoding under the refresh secret fails (bad
signature, malformed or expired), fails with the 401 "Invalid refresh
token" error when the decoded claims lack `sub` or `id` or carry them as
empty strings, and otherwise returns a brand-new access token and
brand-new refresh token minted from the same `id`, `sub` and `is_admin`
claims with token type "bearer" — touching no server-side state (the
function reads and writes no store; the presented token stays valid). -/
theorem refresh_contract (tok : Token) (now : Nat) :
    (jwt_decode tok REFRESH_SECRET_KEY now = none →
      refresh_token tok now = .error InvalidRefreshToken) ∧
    (∀ payload : Claims, jwt_decode tok REFRESH_SECRET_KEY now = some payload →
      ((pyTruthy payload.sub = false ∨ pyTruthy payload.id = false) →
        refresh_token tok now = .error InvalidRefreshClaims) ∧
      (pyTruthy payload.sub = true → pyTruthy payload.id = true →
        refresh_token tok now = .ok
          ⟨create_access_token payload now, create_refresh_token payload now,
           "bearer"⟩)) := by
  constructor
  · intro h
    simp [refresh_token, h]
  · intro payload hdec
    constructor
    · rintro (h | h) <;> simp [refresh_token, hdec, h]
    · intro hsub hid
      simp [refresh_token, hdec, hsub, hid]

/-- Witness for the amended C8: a token signed with the access secret is
rejected as "Invalid or expired refresh token", and a well-formed refresh
token yields a brand-new pair minted from the same claims. -/
theorem refresh_contract_witness :
    refresh_token exTok8bad 0 = .error InvalidRefreshToken ∧
    refresh_token exTok8good 0 = .ok
      ⟨create_access_token ⟨some "u1", some "alice", some true⟩ 0,
       create_refresh_token ⟨some "u1", some "alice", some true⟩ 0, "bearer"⟩ :=
  ⟨(refresh_contract exTok8bad 0).1 rfl,
   ((refresh_contract exTok8good 0).2 ⟨some "u1", some "alice", some true⟩ rfl).2 rfl rfl⟩

/-- Counterexample to C9: the refresh token `exTok9` is validly signed,
unexpired, carries `id` and `sub` claims and no `is_admin` claim, yet
`refresh_token` does not succeed — its present-but-empty `sub` claim fails
the truthiness check and it is rejected with the 401 "Invalid refresh
token" error. -/
theorem refresh_no_admin_counterexample :
    jwt_decode exTok9 REFRESH_SECRET_KEY 0 = some ⟨some "u1", some "", none⟩ ∧
    refresh_token exTok9 0 = .error InvalidRefreshClaims := by
  constructor <;> rfl

/-- C9 as amended: `refresh_token` does not require the `is_admin` claim —
for every validly signed, unexpired refresh token carrying non-empty `id`
and `sub` claims and no `is_admin` claim, it succeeds and mints a new pair
whose tokens both carry the absent/null `is_admin`, and the resulting
access token is then rejected by `get_current_user`, which does require
`is_admin` to be present. -/
theorem refresh_without_admin_claim (tok : Token) (now : Nat) (payload : Claims)
    (uid uname : String)
    (hdec : jwt_decode tok REFRESH_SECRET_KEY now = some payload)
    (hadm : payload.is_admin = none)
    (hid : payload.id = some uid) (hsub : payload.sub = some uname)
    (hui : uid ≠ "") (hun : uname ≠ "") :
    refresh_token tok now = .ok
      ⟨create_access_token payload now, create_refresh_token payload now, "bearer"⟩ ∧
    (create_access_token payload now).claims.is_admin = none ∧
    (create_refresh_token payload now).claims.is_admin = none ∧
    get_current_user (create_access_token payload now) now =
      .error credentials_exception := by
  refine ⟨?_, hadm, hadm, ?_⟩
  · simp [refresh_token, hdec, pyTruthy, hid, hsub, hui, hun]
    constructor <;> rw [← hid, ← hsub]
  · simp [get_current_user, jwt_decode, create_access_token,
      ACCESS_TOKEN_EXPIRE_MINUTES, hadm]

/-- Witness for the amended C9: the refresh token with claims
`{id: "u1", sub: "alice"}` and no `is_admin` refreshes into a pair whose
`is_admin` claim is absent, and the new access token is rejected by
`get_current_user`. -/
theorem refresh_without_admin_claim_witness :
    refresh_token exTok9good 0 = .ok
      ⟨create_access_token ⟨some "u1", some "alice", none⟩ 0,
       create_refresh_token ⟨some "u1", some "alice", none⟩ 0, "bearer"⟩ ∧
    (create_access_token (⟨some "u1", some "alice", none⟩ : Claims) 0).claims.is_admin = none ∧
    (create_refresh_token (⟨some "u1", some "alice", none⟩ : Claims) 0).claims.is_admin = none ∧
    get_current_user (create_access_token ⟨some "u1", some "alice", none⟩ 0) 0 =
      .error credentials_exception :=
  refresh_without_admin_claim exTok9good 0 ⟨some "u1", some "alice", none⟩
    "u1" "alice" rfl rfl rfl rfl (by decide) (by decide)
